import Mathlib

/-!
Shallow embedding of the `playwright-lighthouse-flow` repository:
the before/after comparison CLI (`compare-flow-results`) and the
threshold-assertion helper (`lighthouse-helper.ts`), over exact rationals.
JavaScript numbers are modelled as rationals, JSON `null`/absent fields as
`Option`, JS objects used as string-keyed records as association lists, and
property accesses that can throw a `TypeError` as `Except String`.
-/

/-- Embeds the decimal rendering of a natural number performed by JS string
interpolation.  Fuel-based structural recursion so that the kernel can
evaluate it; the fuel `n + 1` always suffices since `n / 10 < n`. -/
def natDigitsAux : Nat → Nat → List Char
  | 0, _ => []
  | fuel + 1, n =>
      if n < 10 then [Nat.digitChar n]
      else natDigitsAux fuel (n / 10) ++ [Nat.digitChar (n % 10)]

/-- Decimal string of a natural number, as produced by JS template
interpolation of a nonnegative integer. -/
def natDec (n : Nat) : String :=
  String.mk (natDigitsAux (n + 1) n)

/-- Decimal string of an integer, as produced by JS template interpolation. -/
def intDec (n : Int) : String :=
  (if n < 0 then "-" else "") ++ natDec n.natAbs

/-- A one-decimal-place decimal numeral: optional sign, the integer part and
one digit after the point, denoting `(plus or minus n) / 10`. -/
def renderDec (neg : Bool) (n : Nat) : String :=
  (cond neg "-" "") ++ natDec (n / 10) ++ "." ++ natDec (n % 10)

/-- Embeds `Number.prototype.toFixed(1)` (ECMA-262) over exact rationals:
the sign of the input, then the integer nearest to `10 * |q|` (ties toward
the larger integer) rendered with one decimal digit. -/
def toFixed1 (q : ℚ) : String :=
  (if q < 0 then "-" else "")
    ++ natDec ((⌊|q| * 10 + 1/2⌋).toNat / 10) ++ "."
    ++ natDec ((⌊|q| * 10 + 1/2⌋).toNat % 10)

/-- Embeds `Number.prototype.toFixed(0)` over exact rationals. -/
def toFixed0 (q : ℚ) : String :=
  (if q < 0 then "-" else "") ++ natDec (⌊|q| + 1/2⌋).toNat

/-- Embeds `Math.round` (round half toward positive infinity). -/
def mathRound (q : ℚ) : Int := ⌊q + 1/2⌋

/-- Lookup in a string-keyed association list (the embedding of a JS object
property read `obj[key]`; keys are unique in objects parsed from JSON). -/
def findIn {α : Type} : List (String × α) → String → Option α
  | [], _ => none
  | (k, v) :: rest, key => if k = key then some v else findIn rest key

/-- Embeds the `Audit` interface of `compare-flow-results` (one measured
check of a report snapshot); `null`/absent fields are `none`. -/
structure Audit where
  id : String
  title : String
  score : Option ℚ
  scoreDisplayMode : String
  displayValue : Option String
  numericValue : Option ℚ
  numericUnit : Option String

/-- Embeds the `AuditRef` interface (a reference from a category into the
audit mapping of the snapshot). -/
structure AuditRef where
  id : String
  group : Option String
  acronym : Option String
  title : Option String

/-- Embeds the `CategoryGroup` interface (display metadata of a group);
`title` is optional because the source reads it with `?.`. -/
structure CategoryGroup where
  title : Option String
  description : Option String

/-- Embeds the `Category` interface; `score` is `none` for JSON `null`. -/
structure Category where
  id : String
  title : String
  score : Option ℚ
  auditRefs : List AuditRef

/-- Embeds the `LighthouseReport` interface as read from untyped JSON: each
of the three mappings may be entirely absent from the document (`none`),
which is what makes some property accesses in the source throw. -/
structure LHR where
  lighthouseVersion : Option String := none
  audits : Option (List (String × Audit))
  categories : Option (List (String × Category))
  categoryGroups : Option (List (String × CategoryGroup))

/-- The record returned by `compareNumbers` and by the inline numeric-metric
delta of `main`. -/
structure NumDelta where
  before : ℚ
  after : ℚ
  diff : ℚ
  percent : String
  trend : String

/-- One entry of `auditDiffs` built by `main`: the spread of a
`compareNumbers` result plus the audit id and the optional secondary
numeric delta. -/
structure AuditDiff where
  before : ℚ
  after : ℚ
  diff : ℚ
  percent : String
  trend : String
  id : String
  numeric : Option NumDelta

/-- Embeds the `CategoryDiff` interface (a `compareNumbers` result tagged
with the category title). -/
structure CategoryDiff where
  before : ℚ
  after : ℚ
  diff : ℚ
  percent : String
  trend : String
  title : String

/-- One entry of the `steps` array accumulated by `main` and consumed by
`generateTimelineHTML`. -/
structure StepSummary where
  name : String
  categoryDiffs : List (String × CategoryDiff)

/-- One step of a flow-result input document. -/
structure StepIn where
  name : Option String
  lhr : LHR

/-- An input document of the CLI: either `\x7b steps: [...] \x7d`, or a bare
snapshot optionally wrapped as `\x7b lhr: ... \x7d`; `root` is the document
itself viewed as a snapshot for the bare case. -/
structure InputDoc where
  steps : Option (List StepIn)
  lhr : Option LHR
  root : LHR

/-- Embeds `compareNumbers` (compare-flow-results, lines 75-83). -/
def compareNumbers (before after : ℚ) (isScore : Bool := false) : NumDelta :=
  let diff := after - before
  { before := before
    after := after
    diff := diff
    percent := if before ≠ 0 then toFixed1 (diff / before * 100) else "0"
    trend :=
      if diff = 0 then "equal"
      else if isScore then (if diff > 0 then "better" else "worse")
      else (if diff < 0 then "better" else "worse") }

/-- Embeds the inline secondary numeric delta of `main` (lines 510-515):
`trendNum` classifies with the lower-is-better polarity. -/
def numericDelta (numB numA : ℚ) : NumDelta :=
  let diffNum := numA - numB
  { before := numB
    after := numA
    diff := diffNum
    percent := if numB ≠ 0 then toFixed1 (diffNum / numB * 100) else "0"
    trend :=
      if diffNum = 0 then "equal"
      else if diffNum < 0 then "better" else "worse" }

/-- Embeds `scoreColor`; the `null`/`undefined` check of the source is the
`none` case. -/
def scoreColor (score : Option ℚ) : String :=
  match score with
  | none => "#b0b0b0"
  | some s => if s ≥ 0.9 then "#0cce6b" else if s ≥ 0.5 then "#ffa400" else "#ff4e42"

/-- Embeds `trendIcon`. -/
def trendIcon (trend : String) : String :=
  if trend = "better" then "▲" else if trend = "worse" then "🔻" else "⚪"

/-- Embeds `trendColor`. -/
def trendColor (trend : String) : String :=
  if trend = "better" then "#0cce6b" else if trend = "worse" then "#ff4e42" else "#b0b0b0"

/-- Embeds `trendBg`. -/
def trendBg (trend : String) : String :=
  if trend = "better" then "#e8f5e9" else if trend = "worse" then "#ffebee" else "#f1f3f4"

/-- The bucket key of an audit ref: `ref.group || \x27Other\x27` (the empty
string is falsy in JS). -/
def groupKey (ref : AuditRef) : String :=
  match ref.group with
  | some g => if g = "" then "Other" else g
  | none => "Other"

/-- Appends a ref to its bucket, creating the bucket at the end when new
(JS object insertion order). -/
def addToGroup : List (String × List AuditRef) → String → AuditRef → List (String × List AuditRef)
  | [], g, r => [(g, [r])]
  | (k, rs) :: rest, g, r =>
      if k = g then (k, rs ++ [r]) :: rest else (k, rs) :: addToGroup rest g r

/-- Embeds `groupAuditRefsByGroup` (lines 107-115). -/
def groupAuditRefsByGroup (auditRefs : List AuditRef) : List (String × List AuditRef) :=
  auditRefs.foldl (fun acc ref => addToGroup acc (groupKey ref) ref) []

/-- The fixed fallback dictionary of `getFriendlyGroupName`, consulted when
the snapshot carries no metadata entry for the identifier. -/
def fallbackName (groupId : String) : String :=
  if groupId.toLower = "hidden" then "Insights"
  else if groupId = "metrics" then "Metrics"
  else if groupId = "diagnostics" then "Diagnostics"
  else if groupId = "Other" then "Other"
  else groupId

/-- Embeds `getFriendlyGroupName` (lines 117-133). -/
def getFriendlyGroupName (groupId : String) (lhr : LHR) : String :=
  match lhr.categoryGroups with
  | some groupsMap =>
      match findIn groupsMap groupId with
      | some g =>
          let title : Option String := g.title.map String.trim
          if groupId.toLower = "hidden" ∧ (title = none ∨ title = some "") then "Insights"
          else
            match title with
            | some t => if t = "" then groupId else t
            | none => groupId
      | none => fallbackName groupId
  | none => fallbackName groupId

/-- Embeds `renderLegend` (lines 135-152). -/
def renderLegend : String :=
  "
  <div class=\"legend\">
    <div class=\"legend-title\">Legend:</div>
    <div class=\"legend-item\">
      <span style=\"color:#0cce6b; font-size:1.3em;\">▲</span> 
      <span>Improved</span>
    </div>
    <div class=\"legend-item\">
      <span style=\"color:#ff4e42; font-size:1.3em;\">🔻</span> 
      <span>Worsened</span>
    </div>
    <div class=\"legend-item\">
      <span style=\"color:#b0b0b0; font-size:1.3em;\">⚪</span> 
      <span>No change</span>
    </div>
  </div>"

/-- One summary card of `renderCategoryHeader`; JS `null * 100` is `0`,
hence the `getD 0`. -/
def catSummaryCard (categoryDiffs : List (String × CategoryDiff)) (cat : Category) : String :=
  "
      <div class=\"cat-summary-card\" style=\"border-bottom:4px solid " ++ scoreColor cat.score ++ "\">
        <div class=\"cat-summary-title\">" ++ cat.title ++ "</div>
        <div class=\"cat-summary-score\" style=\"color:" ++ scoreColor cat.score ++ "\">"
    ++ toFixed0 (cat.score.getD 0 * 100) ++ "</div>
        "
    ++ (match findIn categoryDiffs cat.id with
        | some diff =>
            "<div class=\"cat-summary-diff\" style=\"color:" ++ trendColor diff.trend ++ "\">"
              ++ trendIcon diff.trend ++ " " ++ diff.percent ++ "%</div>"
        | none => "")
    ++ "
      </div>
      "

/-- Embeds `renderCategoryHeader` (lines 154-169). -/
def renderCategoryHeader (categories : List Category) (categoryDiffs : List (String × CategoryDiff)) : String :=
  "<div class=\"cat-summary\">
    " ++ String.join (categories.map (catSummaryCard categoryDiffs)) ++ "
  </div>"

/-- The predicate of the `failedRefs` filter in `renderCategory` (lines
221-224): the after audit exists, its score is not `null` and is below 1. -/
def auditFailed (audits : List (String × Audit)) (ref : AuditRef) : Bool :=
  match findIn audits ref.id with
  | some afterAudit =>
      match afterAudit.score with
      | some s => decide (s < 1)
      | none => false
  | none => false

/-- The `failedRefs` list of `renderCategory`. -/
def failedRefsFn (audits : List (String × Audit)) (refs : List AuditRef) : List AuditRef :=
  refs.filter (auditFailed audits)

/-- Embeds `renderDiffAudit` (lines 171-206).  The first line is the
authoritative filter: an after score of `null` or exactly 1 renders
nothing. -/
def renderDiffAudit (ref : AuditRef) (beforeAudit afterAudit : Audit) (diff : Option AuditDiff) : String :=
  if afterAudit.score = none ∨ afterAudit.score = some 1 then "" else
  let beforeDisplay :=
    match beforeAudit.displayValue with
    | some s =>
        if s = "" then
          (match beforeAudit.numericValue with
           | some nv => toFixed1 (nv / 1000) ++ " s"
           | none => "")
        else s
    | none =>
        match beforeAudit.numericValue with
        | some nv => toFixed1 (nv / 1000) ++ " s"
        | none => ""
  let afterDisplay :=
    match afterAudit.displayValue with
    | some s =>
        if s = "" then
          (match afterAudit.numericValue with
           | some nv => toFixed1 (nv / 1000) ++ " s"
           | none => "")
        else s
    | none =>
        match afterAudit.numericValue with
        | some nv => toFixed1 (nv / 1000) ++ " s"
        | none => ""
  let trendAndValue : String × String :=
    match beforeAudit.numericValue, afterAudit.numericValue with
    | some nB, some nA =>
        let unit :=
          match afterAudit.numericUnit with
          | some u => if u = "millisecond" then "ms" else u
          | none => ""
        let rawDiff := nA - nB
        let sign := if rawDiff > 0 then "+" else ""
        let trend := (compareNumbers nB nA false).trend
        (trend,
          "<span class=\"audit-diff\" style=\"color:" ++ trendColor trend ++ ";\">"
            ++ sign ++ intDec (mathRound rawDiff) ++ " " ++ unit ++ "</span>")
    | _, _ =>
        match diff with
        | some d =>
            (d.trend,
              "<span class=\"audit-diff\" style=\"color:" ++ trendColor d.trend ++ ";\">"
                ++ (if d.trend = "equal" then "" else d.percent ++ "%") ++ "</span>")
        | none => ("equal", "")
  let trend := trendAndValue.1
  let diffValue := trendAndValue.2
  "
    <li class=\"audit-li\" style=\"background:" ++ trendBg trend ++ ";\">
      <span class=\"audit-icon\" style=\"color:" ++ trendColor trend ++ ";\">" ++ trendIcon trend ++ "</span>
      <span class=\"audit-title\">" ++ afterAudit.title ++ "</span>
      <span class=\"audit-value audit-before\">" ++ beforeDisplay ++ "</span>
      <span class=\"audit-arrow\">→</span>
      <span class=\"audit-value audit-after\">" ++ afterDisplay ++ "</span>
      " ++ diffValue ++ "
      <span class=\"audit-score\" style=\"color:" ++ scoreColor afterAudit.score ++ ";\">
        " ++ (match afterAudit.score with
              | some s => toFixed0 (s * 100)
              | none => "") ++ "
      </span>
    </li>
  "

/-- One row of a failed-refs list (lines 238-245 of `renderCategory`): an
audit missing from either snapshot renders nothing. -/
def auditRow (lhrBefore lhrAfter : LHR) (auditDiffs : List (String × AuditDiff)) (ref : AuditRef) : String :=
  match findIn (lhrBefore.audits.getD []) ref.id, findIn (lhrAfter.audits.getD []) ref.id with
  | some beforeAudit, some afterAudit =>
      renderDiffAudit ref beforeAudit afterAudit (findIn auditDiffs ref.id)
  | _, _ => ""

/-- The category-delta annotation of a category header (lines 266-272):
empty when no delta exists for the category. -/
def catDiffSpan (catDiff : Option CategoryDiff) : String :=
  match catDiff with
  | some cd =>
      "<span class=\"cat-score-diff\" style=\"color:" ++ trendColor cd.trend ++ ";margin-left:1em;\">
        " ++ trendIcon cd.trend ++ " " ++ cd.percent ++ "%
      </span>"
  | none => ""

/-- One group section of `renderCategory` (lines 219-257). -/
def groupSection (lhrBefore lhrAfter : LHR) (auditDiffs : List (String × AuditDiff))
    (g : String × List AuditRef) : String :=
  let failedRefs := failedRefsFn (lhrAfter.audits.getD []) g.2
  if failedRefs.isEmpty then "" else
  let auditsListHtml :=
    "
      <ul class=\"audit-list\">
        <li class=\"audit-li audit-header\">
          <span class=\"audit-icon\"></span>
          <span class=\"audit-title\">Audit</span>
          <span class=\"audit-value audit-before\">Before Value</span>
          <span class=\"audit-arrow\"></span>
          <span class=\"audit-value audit-after\">After Value</span>
          <span class=\"audit-diff\">Difference (%)</span>
          <span class=\"audit-score\">Score</span>
        </li>
        " ++ String.join (failedRefs.map (auditRow lhrBefore lhrAfter auditDiffs)) ++ "
      </ul>
    "
  "
      <div class=\"audit-section\">
        <h3>" ++ getFriendlyGroupName g.1 lhrAfter ++ " <span class=\"count\">("
    ++ natDec failedRefs.length ++ ")</span></h3>
        " ++ auditsListHtml ++ "
      </div>
    "

/-- Embeds `renderCategory` (lines 208-277). -/
def renderCategory (category : Category) (lhrBefore lhrAfter : LHR)
    (auditDiffs : List (String × AuditDiff)) (categoryDiffs : List (String × CategoryDiff)) : String :=
  let color := scoreColor category.score
  let catDiff := findIn categoryDiffs category.id
  let groups := groupAuditRefsByGroup category.auditRefs
  let groupHtml := String.join (groups.map (groupSection lhrBefore lhrAfter auditDiffs))
  if groupHtml.trim = "" then "" else
  "
  <section class=\"category\" style=\"border-left: 12px solid " ++ color ++ "; margin-bottom: 2rem;\">
    <h2>
      " ++ category.title ++ "
      <span class=\"cat-score\" style=\"color:" ++ color ++ "; margin-left: 1em;\">"
    ++ toFixed0 (category.score.getD 0 * 100) ++ "</span>
      " ++ catDiffSpan catDiff ++ "
    </h2>
    " ++ groupHtml ++ "
  </section>
  "

/-- The `catsWithProblems` predicate of `generateStepHTML` (lines 287-295). -/
def catHasProblem (audits : List (String × Audit)) (cat : Category) : Bool :=
  (groupAuditRefsByGroup cat.auditRefs).any (fun g => g.2.any (auditFailed audits))

/-- Embeds `generateStepHTML` (lines 279-343). -/
def generateStepHTML (stepName : String) (lhrBefore lhrAfter : LHR)
    (auditDiffs : List (String × AuditDiff)) (categoryDiffs : List (String × CategoryDiff)) : String :=
  let categories := (lhrAfter.categories.getD []).map Prod.snd
  let catsWithProblems := categories.filter (catHasProblem (lhrAfter.audits.getD []))
  "
  <html>
  <head>
    <title>" ++ stepName ++ " - Problem Audits</title>
    <meta charset=\"utf-8\"/>
    <style>
      @import url(\x27https://fonts.googleapis.com/css2?family=Roboto&display=swap\x27);
      body \x7b font-family: \x27Roboto\x27, Arial, sans-serif; background: #f5f7fa; color: #202124; margin: 0; padding: 2rem;\x7d
      h1 \x7b font-weight: 400; margin-bottom: 1.5rem; \x7d
      .cat-summary \x7b display: flex; gap: 1.5rem; margin-bottom: 2rem; \x7d
      .cat-summary-card \x7b background: #fff; border-radius: 8px 8px 0 0; box-shadow: 0 1px 3px rgb(60 64 67 / 0.13); padding: 1rem 1.5rem; min-width: 140px; flex: 1 1 140px; display: flex; flex-direction: column; align-items: center; border-bottom: 4px solid #0cce6b;\x7d
      .cat-summary-title \x7b font-size: 1.1rem; font-weight: 500; margin-bottom: 0.5rem;\x7d
      .cat-summary-score \x7b font-size: 1.5rem; font-weight: bold;\x7d
      .cat-summary-diff \x7b font-size: 1.05rem; margin-top: 0.2em;\x7d
      .category \x7b background: #fff; border-radius: 8px; box-shadow: 0 1px 3px rgb(60 64 67 / 0.13); margin-bottom: 2.5rem; padding: 1.2rem 2rem 1.2rem 1.5rem;\x7d
      .category h2 \x7b font-size: 1.3rem; font-weight: 600; margin-bottom: 0.8rem; display: flex; align-items: center; gap: 1.2em;\x7d
      .cat-score \x7b font-size: 1.3em; font-weight: bold;\x7d
      .cat-score-diff \x7b font-size: 1.1em; font-weight: bold;\x7d
      .audit-section \x7b margin-bottom: 1.2em;\x7d
      .audit-section h3 \x7b font-size: 1.05em; margin-bottom: 0.3em; margin-top: 0.7em; color: #174ea6; \x7d
      .timeline-link \x7b display: inline-block; margin-bottom: 2em;\x7d
      .audit-list \x7b list-style:none; padding-left:0; margin-top:0.2em; \x7d
      .audit-li \x7b display: flex; align-items: center; gap: 0.7em; padding: 0.3em 0.7em; border-radius: 4px; margin: 0.2em 0; \x7d
      .audit-header \x7b font-weight: bold; background: #e8eaed; border-bottom: 1px solid #ccc; \x7d
      .audit-icon \x7b width: 2em; text-align: center; \x7d
      .audit-title \x7b flex: 1 1 auto; \x7d
      .audit-value \x7b min-width: 7em; text-align: right; display: inline-block; \x7d
      .audit-before \x7b \x7d
      .audit-after \x7b \x7d
      .audit-arrow \x7b width: 2em; text-align: center; \x7d
      .audit-diff \x7b min-width: 6em; text-align: right; display: inline-block; font-weight: bold; \x7d
      .audit-score \x7b min-width: 4em; text-align: right; margin-left: 1em; font-weight: bold; \x7d
      .legend \x7b display: flex; align-items: center; background: #fff; padding: 1em; border-radius: 8px; margin-bottom: 1em; box-shadow: 0 1px 3px rgb(60 64 67 / 0.13); \x7d
      .legend-title \x7b font-weight: bold; margin-right: 1em; \x7d
      .legend-item \x7b display: flex; align-items: center; margin-right: 2em; \x7d
      .legend-item span \x7b margin-right: 0.5em; \x7d
    </style>
  </head>
  <body>
    <a href=\"index.html\" class=\"timeline-link\">&larr; Back to Summary</a>
    <h1>" ++ stepName ++ " — Problem audits only (score &lt; 100)</h1>
    " ++ renderLegend ++ "
    " ++ renderCategoryHeader categories categoryDiffs ++ "
    " ++ String.join (catsWithProblems.map (fun cat =>
            renderCategory cat lhrBefore lhrAfter auditDiffs categoryDiffs)) ++ "
  </body>
  </html>
  "

/-- First-seen deduplication, the embedding of `Array.from(new Set(...))`
(JS sets preserve first-insertion order). -/
def firstSeen (l : List String) : List String :=
  l.foldl (fun acc x => if x ∈ acc then acc else acc ++ [x]) []

/-- The `allCategories` union of `generateTimelineHTML` (line 346): category
identifiers across all steps, in first-seen order. -/
def allCategories (steps : List StepSummary) : List String :=
  firstSeen (steps.flatMap (fun step => step.categoryDiffs.map Prod.fst))

/-- The column-header text of `generateTimelineHTML` (line 349):
`steps[0].categoryDiffs[cat]?.title || cat` consults only the step at
index 0; the `none` head case is unreachable when the category union is
nonempty. -/
def headerTitleFor (steps : List StepSummary) (cat : String) : String :=
  match steps.head? with
  | some s0 =>
      match findIn s0.categoryDiffs cat with
      | some dd => if dd.title = "" then cat else dd.title
      | none => cat
  | none => cat

/-- The header row of `generateTimelineHTML` (lines 347-350). -/
def headerRowFor (steps : List StepSummary) : String :=
  String.join
    (["<th style=\"min-width:120px;\">Step</th>"]
      ++ (allCategories steps).map (fun cat => "<th>" ++ headerTitleFor steps cat ++ "</th>"))

/-- The href written into a populated category cell (line 368): note the
ZERO-based index `i`. -/
def catCellHref (i : Nat) : String :=
  "href=\"step-" ++ natDec i ++ ".html\""

/-- A populated category cell of a timeline row (lines 367-375). -/
def catCell (i : Nat) (val : CategoryDiff) : String :=
  "<td style=\"text-align:center; vertical-align:middle;\">
          <a " ++ catCellHref i ++
    (" class=\"cat-cell\" style=\"border-left: 8px solid " ++ scoreColor (some val.after) ++ ";\">
            <span style=\"color:" ++ scoreColor (some val.before) ++ "\">" ++ toFixed0 (val.before * 100) ++ "</span>
            <span style=\"font-size:1.2em;vertical-align:middle;\">→</span>
            <span style=\"color:" ++ scoreColor (some val.after) ++ "\">" ++ toFixed0 (val.after * 100) ++ "</span>
            <br>
            <span style=\"color:" ++ trendColor val.trend ++ ";font-weight:bold;\">" ++ trendIcon val.trend ++ " " ++ val.percent ++ "%</span>
          </a>
        </td>")

/-- The href written into a step link (line 355): the ONE-based index. -/
def stepLinkCellHref (i : Nat) : String :=
  "href=\"step-" ++ natDec (i + 1) ++ ".html\""

/-- The step-link cell of a timeline row (lines 354-356); the dead `||`
fallback of the source uses the zero-based `i`. -/
def stepLinkCell (i : Nat) (step : StepSummary) : String :=
  "<td style=\"text-align:center;\">
        <a " ++ stepLinkCellHref i ++
    (" class=\"step-link\"><span class=\"step-number\">" ++ natDec (i + 1) ++ "</span> "
      ++ (if step.name = "" then "Step " ++ natDec i else step.name) ++ "</a>
      </td>")

/-- One row of the timeline table (lines 351-379). -/
def rowFor (allCats : List String) (i : Nat) (step : StepSummary) : String :=
  "<tr>
      " ++ stepLinkCell i step ++ "
      " ++ String.join (allCats.map (fun cat =>
          match findIn step.categoryDiffs cat with
          | some val => catCell i val
          | none => "<td>-</td>")) ++ "
    </tr>"

/-- Embeds `generateTimelineHTML` (lines 345-476). -/
def generateTimelineHTML (steps : List StepSummary) : String :=
  let allCats := allCategories steps
  let headerRow := headerRowFor steps
  let rows := String.intercalate "\n" (steps.enum.map (fun p => rowFor allCats p.1 p.2))
  "
  <html>
  <head>
    <title>Lighthouse Comparison Summary</title>
    <meta charset=\"utf-8\"/>
    <style>
      @import url(\x27https://fonts.googleapis.com/css2?family=Roboto&display=swap\x27);
      body \x7b font-family: \x27Roboto\x27, Arial, sans-serif; background: #f5f7fa; color: #202124; padding: 2rem; \x7d
      h1 \x7b font-weight: 400; \x7d
      table \x7b width: 100%; border-collapse: collapse; background: #fff; border-radius: 8px; box-shadow: 0 1px 3px rgb(60 64 67 / 0.13); \x7d
      th, td \x7b padding: 1rem; border-bottom: 1px solid #e0e0e0; text-align: center; \x7d
      th \x7b background: #f8fafc; \x7d
      a \x7b color: #1a73e8; text-decoration: none; \x7d
      a:hover \x7b text-decoration: underline; \x7d
      tr:last-child td \x7b border-bottom: none; \x7d
      .cat-cell \x7b
        display: inline-block;
        background: #f8fafc;
        border-radius: 6px;
        padding: 0.5em 0.7em;
        margin: 0.1em 0;
        text-decoration: none;
        transition: box-shadow 0.2s;
        min-width: 70px;
      \x7d
      .cat-cell:hover \x7b
        box-shadow: 0 0 0 3px #e0e0e0;
        background: #f1f3f4;
      \x7d
      .step-link \x7b
        display: inline-block;
        background: #fff;
        border-radius: 50px;
        padding: 0.5em 1em;
        border: 2px solid #1a73e8;
        color: #1a73e8;
        font-weight: bold;
        transition: background 0.2s, color 0.2s;
      \x7d
      .step-link:hover \x7b
        background: #1a73e8;
        color: #fff;
      \x7d
      .step-number \x7b
        display: inline-block;
        font-weight: bold;
        background: #1a73e8;
        color: #fff;
        border-radius: 50%;
        width: 1.6em;
        height: 1.6em;
        line-height: 1.6em;
        text-align: center;
        margin-right: 0.5em;
        font-size: 1.1em;
      \x7d
      .legend \x7b
        display: flex;
        align-items: center;
        background: #fff;
        padding: 1em;
        border-radius: 8px;
        margin-bottom: 1em;
        box-shadow: 0 1px 3px rgb(60 64 67 / 0.13);
      \x7d
      .legend-title \x7b
        font-weight: bold;
        margin-right: 1em;
      \x7d
      .legend-item \x7b
        display: flex;
        align-items: center;
        margin-right: 2em;
      \x7d
      .legend-item span \x7b
        margin-right: 0.5em;
      \x7d
    </style>
  </head>
  <body>
    <h1>Lighthouse Comparison Summary</h1>
    " ++ renderLegend ++ "
    <table>
      <thead>
        <tr>" ++ headerRow ++ "</tr>
      </thead>
      <tbody>
        " ++ rows ++ "
      </tbody>
    </table>
    <p style=\"color:#5f6368\">Click on a step to see problem audits only.</p>
  </body>
  </html>
  "

/-- The per-audit delta of `main` (lines 504-517): present exactly when
both the before and after scores are non-null; the secondary numeric delta
is attached when both audits carry numeric values (units are NOT
consulted by the source).  The score delta calls `compareNumbers` with its
default `isScore = false`. -/
def computeAuditDiff (bA aA : List (String × Audit)) (id : String) : Option AuditDiff :=
  match (findIn bA id).bind Audit.score, (findIn aA id).bind Audit.score with
  | some before, some after =>
      let base := compareNumbers before after
      let numeric : Option NumDelta :=
        match (findIn bA id).bind Audit.numericValue, (findIn aA id).bind Audit.numericValue with
        | some nB, some nA => some (numericDelta nB nA)
        | _, _ => none
      some { before := base.before, after := base.after, diff := base.diff,
             percent := base.percent, trend := base.trend, id := id, numeric := numeric }
  | _, _ => none

/-- The `auditDiffs` record of one step of `main`: iterates the keys of the
after audit mapping. -/
def computeAuditDiffs (bA aA : List (String × Audit)) : List (String × AuditDiff) :=
  (aA.map Prod.fst).filterMap (fun id => (computeAuditDiff bA aA id).map (fun d => (id, d)))

/-- The per-category delta of `main` (lines 521-530): `compareNumbers` with
`isScore = true`, tagged with the after category title. -/
def computeCategoryDiff (bC : List (String × Category)) (catId : String) (cat : Category) : Option CategoryDiff :=
  match (findIn bC catId).bind Category.score, cat.score with
  | some beforeScore, some afterScore =>
      let base := compareNumbers beforeScore afterScore true
      some { before := base.before, after := base.after, diff := base.diff,
             percent := base.percent, trend := base.trend, title := cat.title }
  | _, _ => none

/-- The `categoryDiffs` record of one step of `main`. -/
def computeCategoryDiffs (bC aC : List (String × Category)) : List (String × CategoryDiff) :=
  aC.filterMap (fun p => (computeCategoryDiff bC p.1 p.2).map (fun d => (p.1, d)))

/-- The audit-delta loop of `main` with its throwing behaviour:
`Object.keys(afterLhr.audits)` throws when the after mapping is absent, and
`beforeLhr.audits[id]?.score` throws when the BEFORE mapping itself is
absent (the optional chain guards only the entry) and at least one key is
iterated. -/
def computeAuditDiffsE (beforeLhr afterLhr : LHR) : Except String (List (String × AuditDiff)) :=
  match afterLhr.audits with
  | none => .error ("TypeError: audits of after is undefined")
  | some aA =>
      match beforeLhr.audits with
      | some bA => .ok (computeAuditDiffs bA aA)
      | none =>
          if aA.isEmpty then .ok [] else .error ("TypeError: audits of before is undefined")

/-- The category-delta loop of `main` with its throwing behaviour (same
pattern as the audit loop). -/
def computeCategoryDiffsE (beforeLhr afterLhr : LHR) : Except String (List (String × CategoryDiff)) :=
  match afterLhr.categories with
  | none => .error ("TypeError: categories of after is undefined")
  | some aC =>
      match beforeLhr.categories with
      | some bC => .ok (computeCategoryDiffs bC aC)
      | none =>
          if aC.isEmpty then .ok [] else .error ("TypeError: categories of before is undefined")

/-- `generateStepHTML` with its throwing behaviour:
`Object.values(lhrAfter.categories)` throws when the after category mapping
is absent; `lhrAfter.audits[ref.id]` throws when the after audit mapping is
absent and some category carries a ref; `lhrBefore.audits[ref.id]` (line
240) throws when the before audit mapping is absent and some category has a
failing ref. -/
def generateStepHTMLE (stepName : String) (lhrBefore lhrAfter : LHR)
    (auditDiffs : List (String × AuditDiff)) (categoryDiffs : List (String × CategoryDiff)) :
    Except String String :=
  match lhrAfter.categories with
  | none => .error ("TypeError: categories of after is undefined")
  | some cats =>
      match lhrAfter.audits with
      | none =>
          if (cats.map Prod.snd).all (fun c => c.auditRefs.isEmpty) then
            .ok (generateStepHTML stepName lhrBefore lhrAfter auditDiffs categoryDiffs)
          else .error ("TypeError: audits of after is undefined")
      | some aA =>
          match lhrBefore.audits with
          | some _ => .ok (generateStepHTML stepName lhrBefore lhrAfter auditDiffs categoryDiffs)
          | none =>
              if (cats.map Prod.snd).all (fun c => ¬ catHasProblem aA c) then
                .ok (generateStepHTML stepName lhrBefore lhrAfter auditDiffs categoryDiffs)
              else .error ("TypeError: audits of before is undefined")

/-- The page title of a step page built by `main` (line 534). -/
def stepTitle (i : Nat) (a : StepIn) : String :=
  "Step " ++ natDec (i + 1) ++ ": " ++ (a.name.getD "")

/-- The summary name pushed by `main` (line 532): `name || Step i+1`. -/
def summaryName (i : Nat) (a : StepIn) : String :=
  match a.name with
  | some s => if s = "" then "Step " ++ natDec (i + 1) else s
  | none => "Step " ++ natDec (i + 1)

/-- One iteration of the step loop of `main` (lines 499-536) at zero-based
position `i`: deltas, summary entry and step page. -/
def runStepE (b a : StepIn) (i : Nat) : Except String (StepSummary × String) := do
  let auditDiffs ← computeAuditDiffsE b.lhr a.lhr
  let categoryDiffs ← computeCategoryDiffsE b.lhr a.lhr
  let html ← generateStepHTMLE (stepTitle i a) b.lhr a.lhr auditDiffs categoryDiffs
  .ok ({ name := summaryName i a, categoryDiffs := categoryDiffs }, html)

/-- The step-sequence extraction of `main` (lines 488-489):
`doc.steps || [\x7b lhr: doc.lhr || doc \x7d]` (an array is always truthy in
JS, so an empty steps array is kept). -/
def docSteps (d : InputDoc) : List StepIn :=
  match d.steps with
  | some s => s
  | none => [{ name := none, lhr := match d.lhr with | some l => l | none => d.root }]

/-- The step loop of `main` over positionally aligned pairs, carrying the
zero-based position; produces the summaries and the `step-<n>.html` files. -/
def runPairs : List (StepIn × StepIn) → Nat → Except String (List StepSummary × List (String × String))
  | [], _ => .ok ([], [])
  | (b, a) :: rest, i => do
      let (summary, html) ← runStepE b a i
      let (sums, files) ← runPairs rest (i + 1)
      .ok (summary :: sums, ("step-" ++ natDec (i + 1) ++ ".html", html) :: files)

/-- Embeds `main` (lines 478-550) as the list of files it writes to the
output directory: `zip` is the positional alignment truncating to the
shorter step sequence, and the index page is written last. -/
def mainE (before after : InputDoc) : Except String (List (String × String)) := do
  let (sums, files) ← runPairs ((docSteps before).zip (docSteps after)) 0
  .ok (files ++ [("index.html", generateTimelineHTML sums)])

/-- Embeds the lighthouse `AuditRef` as consumed by the helper (only the
weight is consulted). -/
structure HAuditRef where
  id : String
  weight : ℚ

/-- A category of one step of a flow result, as consumed by
`assertLighthouseFlowResultThresholds`: the score may be `null` and the
`auditRefs` array may be absent (the source reads it with `?.`). -/
structure HCategory where
  title : String
  score : Option ℚ
  auditRefs : Option (List HAuditRef)

/-- The `lhr` of one flow-result step, as consumed by the helper. -/
structure HLhr where
  categories : List (String × HCategory)

/-- One step of a flow result, as consumed by the helper. -/
structure HStep where
  name : Option String
  lhr : HLhr

/-- The observable outcome of one (step, category) threshold check of
`assertLighthouseFlowResultThresholds`:
`skippedNotFound` and `skippedZeroWeight` are the two logged skips;
`nullScore` means only the soft not-null assertion ran (and failed);
`asserted s p` means the soft assertion `s >= threshold` ran with result
`p` (after the soft not-null assertion passed). -/
inductive CheckOutcome where
  | skippedNotFound
  | skippedZeroWeight
  | nullScore
  | asserted (actualScore : ℚ) (passed : Bool)
deriving DecidableEq

/-- The `allAuditsWeightZero` flag (line 120): `categoryData.auditRefs?.
every(ref => ref.weight === 0)`; an absent `auditRefs` gives `undefined`,
which is falsy in the `&&` that consumes it. -/
def allW0 (categoryData : HCategory) : Bool :=
  match categoryData.auditRefs with
  | some refs => refs.all (fun r => decide (r.weight = 0))
  | none => false

/-- Embeds the per-(category, threshold) body of
`assertLighthouseFlowResultThresholds` (lines 112-142). -/
def checkCategory (cats : List (String × HCategory)) (category : String) (threshold : ℚ) : CheckOutcome :=
  match findIn cats category with
  | none => .skippedNotFound
  | some categoryData =>
      if categoryData.score.getD 0 = 0 ∧ allW0 categoryData = true then .skippedZeroWeight
      else
        match categoryData.score with
        | none => .nullScore
        | some score => .asserted (score * 100) (decide (score * 100 ≥ threshold))

/-- The step label used in the helper logs: `step.name || \x27Unnamed
step\x27`. -/
def stepNameOf (step : HStep) : String :=
  match step.name with
  | some s => if s = "" then "Unnamed step" else s
  | none => "Unnamed step"

/-- Embeds `assertLighthouseFlowResultThresholds` (lines 106-146) as the
list of check outcomes it produces: every step of the flow result crossed
with every thresholds entry whose value is defined. -/
def assertLighthouseFlowResultThresholds (flowResult : List HStep)
    (thresholds : List (String × Option ℚ)) : List (String × String × CheckOutcome) :=
  flowResult.flatMap (fun step =>
    thresholds.filterMap (fun p =>
      match p.2 with
      | some t => some (stepNameOf step, p.1, checkCategory step.lhr.categories p.1 t)
      | none => none))

/-- Sample audit with numeric value but no numeric unit (before side). -/
def cexAuditB : Audit :=
  { id := "x", title := "X", score := some (1/2), scoreDisplayMode := "numeric",
    displayValue := none, numericValue := some 100, numericUnit := none }

/-- Sample audit with numeric value but no numeric unit (after side). -/
def cexAuditA : Audit :=
  { id := "x", title := "X", score := some (1/2), scoreDisplayMode := "numeric",
    displayValue := none, numericValue := some 200, numericUnit := none }

/-- Before audit mapping of the C3 counterexample. -/
def cexB : List (String × Audit) := [("x", cexAuditB)]

/-- After audit mapping of the C3 counterexample. -/
def cexA : List (String × Audit) := [("x", cexAuditA)]

/-- A helper category whose audit refs all carry zero weight but whose
score is 1/2. -/
def hcatHalf : HCategory :=
  { title := "Performance", score := some (1/2), auditRefs := some [{ id := "a", weight := 0 }] }

/-- Helper category mapping of the C4 counterexample. -/
def hcats0 : List (String × HCategory) := [("performance", hcatHalf)]

/-- A helper category with a null score and no audit refs array. -/
def hcatNull : HCategory := { title := "Performance", score := none, auditRefs := none }

/-- Second helper category mapping of the C4 counterexample. -/
def hcats1 : List (String × HCategory) := [("performance", hcatNull)]

/-- A step summary defining no category delta (C5 counterexample, step 1). -/
def s1x : StepSummary := { name := "one", categoryDiffs := [] }

/-- The category delta carried by the second step of the C5 counterexample. -/
def cd0 : CategoryDiff :=
  { before := 1/2, after := 3/4, diff := 1/4, percent := "50.0", trend := "better",
    title := "Performance" }

/-- A step summary that does define a delta for `performance` (C5
counterexample, step 2). -/
def s2x : StepSummary := { name := "two", categoryDiffs := [("performance", cd0)] }

/-- An audit whose after score is exactly 1 (C6 witness). -/
def perfectAudit : Audit :=
  { id := "p", title := "P", score := some 1, scoreDisplayMode := "numeric",
    displayValue := none, numericValue := none, numericUnit := none }

/-- A plain audit ref. -/
def sampleRef : AuditRef := { id := "p", group := none, acronym := none, title := none }

/-- An empty-but-present snapshot: both mappings exist and are empty. -/
def lhr0 : LHR := { audits := some [], categories := some [], categoryGroups := none }

/-- A snapshot with no mappings at all (malformed document). -/
def lhrNoMaps : LHR := { audits := none, categories := none, categoryGroups := none }

/-- A snapshot whose audit mapping has one entry. -/
def lhrOneAudit : LHR := { audits := some [("x", cexAuditA)], categories := some [], categoryGroups := none }

/-- A step wrapping the empty snapshot, named A. -/
def stepA : StepIn := { name := some "A", lhr := lhr0 }

/-- A step wrapping the empty snapshot, named B. -/
def stepB : StepIn := { name := some "B", lhr := lhr0 }

/-- Input document with two steps (C7 witness, before side). -/
def docTwoSteps : InputDoc := { steps := some [stepA, stepA], lhr := none, root := lhr0 }

/-- Input document with one step (C7 witness, after side). -/
def docOneStep : InputDoc := { steps := some [stepB], lhr := none, root := lhr0 }

/-- A snapshot carrying one category-group metadata entry (C9 witness). -/
def lhrWithGroups : LHR :=
  { audits := none, categories := none,
    categoryGroups := some [("lcp-group", { title := some "LCP", description := none })] }

theorem toFixed1_eq_renderDec (q : ℚ) :
    toFixed1 q = renderDec (decide (q < 0)) (⌊|q| * 10 + 1/2⌋).toNat := by
  by_cases h : q < 0 <;> simp [toFixed1, renderDec, h]

theorem toFixed1_near (q : ℚ) :
    ∃ (neg : Bool) (n : Nat), toFixed1 q = renderDec neg n ∧
      |q - (cond neg (-(n : ℚ)) (n : ℚ)) / 10| ≤ 1 / 20 := by
  refine ⟨decide (q < 0), (⌊|q| * 10 + 1/2⌋).toNat, toFixed1_eq_renderDec q, ?_⟩
  have h0 : (0 : ℚ) ≤ |q| * 10 + 1/2 := by positivity
  have hm : (0 : ℤ) ≤ ⌊|q| * 10 + 1/2⌋ := Int.floor_nonneg.mpr h0
  have hcast : (((⌊|q| * 10 + 1/2⌋).toNat : ℚ)) = ((⌊|q| * 10 + 1/2⌋ : ℤ) : ℚ) := by
    exact_mod_cast congrArg (fun z : ℤ => (z : ℚ)) (Int.toNat_of_nonneg hm)
  have h1 : ((⌊|q| * 10 + 1/2⌋ : ℤ) : ℚ) ≤ |q| * 10 + 1/2 := Int.floor_le _
  have h2 : |q| * 10 + 1/2 < ((⌊|q| * 10 + 1/2⌋ : ℤ) : ℚ) + 1 := Int.lt_floor_add_one _
  by_cases h : q < 0
  · have habs : |q| = -q := abs_of_neg h
    rw [show (decide (q < 0)) = true from decide_eq_true h]
    simp only [cond, hcast]
    rw [habs] at h1 h2 ⊢
    rw [abs_le]
    constructor <;> linarith
  · have habs : |q| = q := abs_of_nonneg (not_lt.mp h)
    rw [show (decide (q < 0)) = false from decide_eq_false h]
    simp only [cond, hcast]
    rw [habs] at h1 h2 ⊢
    rw [abs_le]
    constructor <;> linarith

/-- Claim C1: every delta produced by the comparison (audit score delta,
category score delta, and numeric-metric delta) has a `percent` field that
is, when `before` is nonzero, a one-decimal decimal string denoting the
value of `((after - before) / before) * 100` rounded to one decimal place
(the denoted tenth is within 1/20 of the exact value), and is the string
"0" when `before` is zero, regardless of `after`. -/
theorem C1_percent_correct (b a : ℚ) (s : Bool) :
    (b = 0 → (compareNumbers b a s).percent = "0" ∧ (numericDelta b a).percent = "0")
    ∧ (b ≠ 0 → ∃ (neg : Bool) (n : Nat),
        (compareNumbers b a s).percent = renderDec neg n
        ∧ (numericDelta b a).percent = renderDec neg n
        ∧ |(a - b) / b * 100 - (cond neg (-(n : ℚ)) (n : ℚ)) / 10| ≤ 1 / 20) := by
  constructor
  · intro hb; constructor <;> simp [compareNumbers, numericDelta, hb]
  · intro hb
    obtain ⟨neg, n, h1, h2⟩ := toFixed1_near ((a - b) / b * 100)
    exact ⟨neg, n, by simp [compareNumbers, hb, h1], by simp [numericDelta, hb, h1], h2⟩

theorem C1_percent_correct_witness :
    ((2 : ℚ) ≠ 0)
    ∧ (∃ (neg : Bool) (n : Nat),
        (compareNumbers 2 3 true).percent = renderDec neg n
        ∧ (numericDelta 2 3).percent = renderDec neg n
        ∧ |((3 : ℚ) - 2) / 2 * 100 - (cond neg (-(n : ℚ)) (n : ℚ)) / 10| ≤ 1 / 20)
    ∧ (compareNumbers 0 5 false).percent = "0" := by
  refine ⟨by norm_num, (C1_percent_correct 2 3 true).2 (by norm_num),
    ((C1_percent_correct 0 5 false).1 rfl).1⟩

/-- Claim C2: trend classification is a pure function of the pair
(diff, polarity mode): a zero diff yields "equal" in both modes; in score
mode a positive diff is "better" and a negative one "worse"; in
numeric-metric mode (the `isScore = false` call and the inline metric
delta) a negative diff is "better" and a positive one "worse". -/
theorem C2_trend_classification (b a : ℚ) :
    (∀ (s : Bool) (b' a' : ℚ), a' - b' = a - b →
        (compareNumbers b' a' s).trend = (compareNumbers b a s).trend)
    ∧ (a - b = 0 → ∀ s, (compareNumbers b a s).trend = "equal" ∧ (numericDelta b a).trend = "equal")
    ∧ (a - b > 0 → (compareNumbers b a true).trend = "better"
        ∧ (compareNumbers b a false).trend = "worse" ∧ (numericDelta b a).trend = "worse")
    ∧ (a - b < 0 → (compareNumbers b a true).trend = "worse"
        ∧ (compareNumbers b a false).trend = "better" ∧ (numericDelta b a).trend = "better") := by
  refine ⟨?_, ?_, ?_, ?_⟩
  · intro s b' a' h; simp [compareNumbers, h]
  · intro h s; constructor <;> simp [compareNumbers, numericDelta, h]
  · intro h
    have h0 : a - b ≠ 0 := ne_of_gt h
    have h1 : ¬(a - b < 0) := not_lt.mpr (le_of_lt h)
    refine ⟨?_, ?_, ?_⟩ <;> simp [compareNumbers, numericDelta, h, h0, h1]
  · intro h
    have h0 : a - b ≠ 0 := ne_of_lt h
    refine ⟨?_, ?_, ?_⟩ <;> simp [compareNumbers, numericDelta, h, h0, asymm h]

theorem C2_trend_classification_witness :
    ((1 : ℚ) - 0 > 0)
    ∧ (compareNumbers 0 1 true).trend = "better"
    ∧ (compareNumbers 0 1 false).trend = "worse"
    ∧ (numericDelta 0 1).trend = "worse" := by
  obtain ⟨x, y, z⟩ := (C2_trend_classification 0 1).2.2.1 (by norm_num)
  exact ⟨by norm_num, x, y, z⟩

theorem findIn_filterMap_keys {α : Type} (l : List String) (f : String → Option α) (id : String) :
    findIn (l.filterMap (fun k => (f k).map (fun v => (k, v)))) id
      = if id ∈ l then f id else none := by
  induction l with
  | nil => simp [findIn]
  | cons k rest ih =>
    by_cases hk : k = id
    · subst hk
      cases hf : f k with
      | none =>
        rw [List.filterMap_cons]
        simp only [hf, Option.map_none']
        rw [ih]
        by_cases hm : k ∈ rest <;> simp [hm, hf]
      | some v =>
        rw [List.filterMap_cons]
        simp [hf, findIn]
    · cases hf : f k with
      | none =>
        rw [List.filterMap_cons]
        simp only [hf, Option.map_none']
        rw [ih]
        simp [List.mem_cons, hk, Ne.symm hk]
      | some v =>
        rw [List.filterMap_cons]
        simp only [hf, Option.map_some']
        rw [findIn]
        simp [hk, ih, List.mem_cons, Ne.symm hk]

theorem numericDelta_trend_iff (nB nA : ℚ) :
    ((numericDelta nB nA).trend = "equal" ↔ nA - nB = 0)
    ∧ ((numericDelta nB nA).trend = "better" ↔ nA - nB < 0)
    ∧ ((numericDelta nB nA).trend = "worse" ↔ nA - nB > 0) := by
  rcases lt_trichotomy (nA - nB) 0 with h | h | h
  · have ht : (numericDelta nB nA).trend = "better" := by
      simp [numericDelta, ne_of_lt h, h]
    rw [ht]
    exact ⟨iff_of_false (by decide) (ne_of_lt h), iff_of_true rfl h,
      iff_of_false (by decide) (asymm h)⟩
  · have ht : (numericDelta nB nA).trend = "equal" := by simp [numericDelta, h]
    rw [ht]
    refine ⟨iff_of_true rfl h, iff_of_false (by decide) ?_, iff_of_false (by decide) ?_⟩
    · rw [h]; exact lt_irrefl 0
    · rw [h]; exact lt_irrefl 0
  · have ht : (numericDelta nB nA).trend = "worse" := by
      simp [numericDelta, ne_of_gt h, not_lt.mpr (le_of_lt h)]
    rw [ht]
    exact ⟨iff_of_false (by decide) (ne_of_gt h),
      iff_of_false (by decide) (not_lt.mpr (le_of_lt h)), iff_of_true rfl h⟩

/-- Claim C3 (amended): for every audit identifier present in the after
audit mapping whose before and after scores are both non-null, the
secondary numeric delta (diff = after numeric value minus before numeric
value, lower-after-is-better polarity) is computed exactly when both the
before and after audits carry numeric values; numeric units are NOT
consulted. -/
theorem C3_numeric_delta (bA aA : List (String × Audit)) (id : String) :
    ((∃ d, findIn (computeAuditDiffs bA aA) id = some d ∧ d.numeric.isSome)
      ↔ (id ∈ aA.map Prod.fst
          ∧ ((findIn bA id).bind Audit.score).isSome
          ∧ ((findIn aA id).bind Audit.score).isSome
          ∧ ((findIn bA id).bind Audit.numericValue).isSome
          ∧ ((findIn aA id).bind Audit.numericValue).isSome))
    ∧ (∀ d nd, findIn (computeAuditDiffs bA aA) id = some d → d.numeric = some nd →
        ∃ nB nA, (findIn bA id).bind Audit.numericValue = some nB
          ∧ (findIn aA id).bind Audit.numericValue = some nA
          ∧ nd.diff = nA - nB
          ∧ (nd.trend = "equal" ↔ nd.diff = 0)
          ∧ (nd.trend = "better" ↔ nd.diff < 0)
          ∧ (nd.trend = "worse" ↔ nd.diff > 0)) := by
  have hfi : findIn (computeAuditDiffs bA aA) id
      = if id ∈ aA.map Prod.fst then computeAuditDiff bA aA id else none := by
    unfold computeAuditDiffs
    exact findIn_filterMap_keys (aA.map Prod.fst) (computeAuditDiff bA aA) id
  constructor
  · by_cases hmem : id ∈ aA.map Prod.fst
    · rw [hfi, if_pos hmem]
      unfold computeAuditDiff
      cases hbs : (findIn bA id).bind Audit.score with
      | none => simp [hmem]
      | some b0 =>
        cases has : (findIn aA id).bind Audit.score with
        | none => simp [hmem]
        | some a0 =>
          cases hbn : (findIn bA id).bind Audit.numericValue with
          | none => simp [hmem]
          | some nB =>
            cases han : (findIn aA id).bind Audit.numericValue with
            | none => simp [hmem]
            | some nA => simp [hmem]
    · rw [hfi, if_neg hmem]
      simp [hmem]
  · intro d nd hd hnd
    rw [hfi] at hd
    by_cases hmem : id ∈ aA.map Prod.fst
    · rw [if_pos hmem] at hd
      unfold computeAuditDiff at hd
      revert hd
      cases hbs : (findIn bA id).bind Audit.score with
      | none => intro hd; exact absurd hd (by simp)
      | some b0 =>
        cases has : (findIn aA id).bind Audit.score with
        | none => intro hd; exact absurd hd (by simp)
        | some a0 =>
          cases hbn : (findIn bA id).bind Audit.numericValue with
          | none =>
            intro hd
            injection hd with hd'
            rw [← hd'] at hnd
            simp at hnd
          | some nB =>
            cases han : (findIn aA id).bind Audit.numericValue with
            | none =>
              intro hd
              injection hd with hd'
              rw [← hd'] at hnd
              simp at hnd
            | some nA =>
              intro hd
              injection hd with hd'
              rw [← hd'] at hnd
              have hnd' : nd = numericDelta nB nA := by simpa using hnd.symm
              obtain ⟨t1, t2, t3⟩ := numericDelta_trend_iff nB nA
              refine ⟨nB, nA, rfl, rfl, ?_, ?_, ?_, ?_⟩
              · rw [hnd']; rfl
              · rw [hnd']; exact t1
              · rw [hnd']; exact t2
              · rw [hnd']; exact t3
    · rw [if_neg hmem] at hd
      exact absurd hd (by simp)

/-- Counterexample to claim C3 as stated: with both audits carrying numeric
values but NO numeric units, the secondary numeric delta is still
computed, contradicting the "and numeric units" part of the claim. -/
theorem C3_numeric_delta_cex :
    ((findIn (computeAuditDiffs cexB cexA) "x").bind AuditDiff.numeric).isSome = true
    ∧ (findIn cexA "x").bind Audit.numericUnit = none
    ∧ (findIn cexB "x").bind Audit.numericUnit = none :=
  ⟨rfl, rfl, rfl⟩

theorem C3_numeric_delta_witness :
    ∃ d, findIn (computeAuditDiffs cexB cexA) "x" = some d ∧ d.numeric.isSome :=
  (C3_numeric_delta cexB cexA "x").1.mpr ⟨by decide, rfl, rfl, rfl, rfl⟩

/-- Claim C4 (amended): for every step of the flow result and every entry
of the thresholds mapping with a defined value, the threshold check is
skipped exactly when the category is absent from the step, or when the
score (null coalesced to 0) is 0 AND the audit-ref list is present with
every ref of zero weight; in all other cases a soft (continue-on-failure)
not-null assertion runs and, when the score is non-null, a soft assertion
that the score scaled to 0-100 meets the threshold is performed. -/
theorem C4_threshold_checks (cats : List (String × HCategory)) (c : String) (t : ℚ) :
    (checkCategory cats c t = .skippedNotFound ↔ findIn cats c = none)
    ∧ (checkCategory cats c t = .skippedZeroWeight ↔
        ∃ cd, findIn cats c = some cd ∧ cd.score.getD 0 = 0 ∧ allW0 cd = true)
    ∧ (∀ cd s, findIn cats c = some cd → cd.score = some s → ¬(s = 0 ∧ allW0 cd = true) →
        checkCategory cats c t = .asserted (s * 100) (decide (s * 100 ≥ t)))
    ∧ (∀ cd, findIn cats c = some cd → cd.score = none → allW0 cd = false →
        checkCategory cats c t = .nullScore)
    ∧ (∀ (flow : List HStep) (thr : List (String × Option ℚ)) (sn c' : String) (r : CheckOutcome),
        (sn, c', r) ∈ assertLighthouseFlowResultThresholds flow thr ↔
          ∃ step, step ∈ flow ∧ sn = stepNameOf step
            ∧ ∃ t', (c', some t') ∈ thr ∧ r = checkCategory step.lhr.categories c' t') := by
  refine ⟨?_, ?_, ?_, ?_, ?_⟩
  · cases hfc : findIn cats c with
    | none => simp [checkCategory, hfc]
    | some cd =>
      by_cases hz : cd.score.getD 0 = 0 ∧ allW0 cd = true
      · simp [checkCategory, hfc, hz]
      · cases hs : cd.score <;> simp [checkCategory, hfc, hz, hs] <;> split <;> simp
  · cases hfc : findIn cats c with
    | none => simp [checkCategory, hfc]
    | some cd =>
      by_cases hz : cd.score.getD 0 = 0 ∧ allW0 cd = true
      · exact iff_of_true (by simp [checkCategory, hfc, hz]) ⟨cd, rfl, hz.1, hz.2⟩
      · cases hs : cd.score <;> simp [checkCategory, hfc, hz, hs]
  · intro cd s hfc hs hns
    have hz : ¬(cd.score.getD 0 = 0 ∧ allW0 cd = true) := by
      rw [hs]
      simpa using hns
    simp only [checkCategory, hfc]
    rw [if_neg hz, hs]
  · intro cd hfc hs hw
    have hz : ¬(cd.score.getD 0 = 0 ∧ allW0 cd = true) := by
      rintro ⟨_, h2⟩
      rw [hw] at h2
      exact Bool.false_ne_true h2
    simp only [checkCategory, hfc]
    rw [if_neg hz, hs]
  · intro flow thr sn c' r
    unfold assertLighthouseFlowResultThresholds
    simp only [List.mem_flatMap, List.mem_filterMap]
    constructor
    · rintro ⟨step, hstep, ⟨pc, pt⟩, hp, hmatch⟩
      cases pt with
      | none => simp at hmatch
      | some t' =>
        simp only [Option.some.injEq, Prod.mk.injEq] at hmatch
        obtain ⟨h1, h2, h3⟩ := hmatch
        subst h1
        subst h2
        subst h3
        exact ⟨step, hstep, rfl, t', hp, rfl⟩
    · rintro ⟨step, hstep, hsn, t', hmem, hr⟩
      refine ⟨step, hstep, (c', some t'), hmem, ?_⟩
      simp only
      rw [hsn, hr]

/-- Counterexample to claim C4 as stated: a category whose every audit ref
carries zero weight but whose score is 1/2 is NOT skipped (an assertion
runs and fails against threshold 90), and a category with a null score and
no zero-weight skip receives no threshold assertion, only the soft
not-null check. -/
theorem C4_threshold_checks_cex :
    (([⟨"a", 0⟩] : List HAuditRef).all (fun r => decide (r.weight = 0)) = true)
    ∧ checkCategory hcats0 "performance" 90 = .asserted 50 false
    ∧ checkCategory hcats1 "performance" 90 = .nullScore := by
  refine ⟨rfl, ?_, ?_⟩
  · norm_num [checkCategory, hcats0, hcatHalf, allW0, findIn]
  · norm_num [checkCategory, hcats1, hcatNull, allW0, findIn]

theorem C4_threshold_checks_witness :
    findIn hcats0 "performance" = some hcatHalf
    ∧ hcatHalf.score = some (1/2)
    ∧ checkCategory hcats0 "performance" 90 = .asserted (1/2 * 100) (decide ((1/2 : ℚ) * 100 ≥ 90)) := by
  refine ⟨rfl, rfl, (C4_threshold_checks hcats0 "performance" 90).2.2.1 hcatHalf (1/2) rfl rfl ?_⟩
  intro h
  exact absurd h.1 (by norm_num)

/-- Claim C5 (amended): the index-page column header for a category shows
the title from the delta of the step at index 0 when that step defines one
with a non-empty title, and otherwise falls back to the raw category
identifier; later steps are never consulted. -/
theorem C5_header_title (s0 : StepSummary) (rest rest2 : List StepSummary) (cat : String) :
    headerTitleFor (s0 :: rest) cat = headerTitleFor (s0 :: rest2) cat
    ∧ (∀ dd, findIn s0.categoryDiffs cat = some dd → dd.title ≠ "" →
        headerTitleFor (s0 :: rest) cat = dd.title)
    ∧ (findIn s0.categoryDiffs cat = none → headerTitleFor (s0 :: rest) cat = cat)
    ∧ (∀ dd, findIn s0.categoryDiffs cat = some dd → dd.title = "" →
        headerTitleFor (s0 :: rest) cat = cat) := by
  refine ⟨rfl, ?_, ?_, ?_⟩
  · intro dd h1 h2
    simp [headerTitleFor, h1, h2]
  · intro h1
    simp [headerTitleFor, h1]
  · intro dd h1 h2
    simp [headerTitleFor, h1, h2]

/-- Counterexample to claim C5 as stated: the first step defining a delta
for `performance` is the SECOND step (with title `Performance`), yet the
header shows the raw identifier because only step 0 is consulted. -/
theorem C5_header_title_cex :
    findIn s1x.categoryDiffs "performance" = none
    ∧ findIn s2x.categoryDiffs "performance" = some cd0
    ∧ cd0.title = "Performance"
    ∧ headerTitleFor [s1x, s2x] "performance" = "performance"
    ∧ ("performance" : String) ≠ "Performance" := by
  refine ⟨rfl, rfl, rfl, rfl, by decide⟩

theorem C5_header_title_witness :
    findIn s2x.categoryDiffs "performance" = some cd0
    ∧ cd0.title ≠ ""
    ∧ headerTitleFor [s2x, s1x] "performance" = cd0.title := by
  exact ⟨rfl, by decide, (C5_header_title s2x [s1x] [] "performance").2.1 cd0 rfl (by decide)⟩

/-- Claim C6: an audit whose after score is null or exactly 1 never appears
in a rendered step page problem list: `renderDiffAudit` returns the empty
string for it (the authoritative second filter), and the upstream
`failedRefs` group filter only ever selects refs whose after score exists
and is below 1. -/
theorem C6_perfect_filter :
    (∀ (ref : AuditRef) (b a : Audit) (d : Option AuditDiff),
        (a.score = none ∨ a.score = some 1) → renderDiffAudit ref b a d = "")
    ∧ (∀ (audits : List (String × Audit)) (refs : List AuditRef) (r : AuditRef),
        r ∈ failedRefsFn audits refs →
        ∃ aud s, findIn audits r.id = some aud ∧ aud.score = some s ∧ s < 1) := by
  constructor
  · intro ref b a d h
    unfold renderDiffAudit
    rw [if_pos h]
  · intro audits refs r hr
    rw [failedRefsFn, List.mem_filter] at hr
    obtain ⟨-, hp⟩ := hr
    unfold auditFailed at hp
    split at hp
    · rename_i aud heq
      split at hp
      · rename_i s heq2
        exact ⟨aud, s, heq, heq2, by simpa using hp⟩
      · exact absurd hp (by simp)
    · exact absurd hp (by simp)

theorem C6_perfect_filter_witness :
    perfectAudit.score = some 1
    ∧ renderDiffAudit sampleRef perfectAudit perfectAudit none = "" :=
  ⟨rfl, C6_perfect_filter.1 sampleRef perfectAudit perfectAudit none (Or.inr rfl)⟩

/-- Claim C9: group display name resolution.  With a metadata entry, the
trimmed title is used when usable; the case-insensitive `hidden` identifier
with no usable title yields `Insights`; a non-`hidden` identifier with no
usable title echoes the raw identifier.  With no entry the fixed dictionary
applies (with `hidden` matched case-insensitively), else the raw identifier
is echoed. -/
theorem C9_group_name (groupId : String) (lhr : LHR) :
    (∀ m g, lhr.categoryGroups = some m → findIn m groupId = some g →
        ((∀ ttl, g.title = some ttl → ttl.trim ≠ "" →
            getFriendlyGroupName groupId lhr = ttl.trim)
          ∧ (groupId.toLower = "hidden" →
              (g.title = none ∨ (∃ ttl, g.title = some ttl ∧ ttl.trim = "")) →
              getFriendlyGroupName groupId lhr = "Insights")
          ∧ (groupId.toLower ≠ "hidden" →
              (g.title = none ∨ (∃ ttl, g.title = some ttl ∧ ttl.trim = "")) →
              getFriendlyGroupName groupId lhr = groupId)))
    ∧ ((lhr.categoryGroups = none ∨ (∃ m, lhr.categoryGroups = some m ∧ findIn m groupId = none)) →
        getFriendlyGroupName groupId lhr = fallbackName groupId)
    ∧ (fallbackName groupId =
        if groupId.toLower = "hidden" then "Insights"
        else if groupId = "metrics" then "Metrics"
        else if groupId = "diagnostics" then "Diagnostics"
        else if groupId = "Other" then "Other"
        else groupId) := by
  refine ⟨?_, ?_, rfl⟩
  · intro m g hm hg
    refine ⟨?_, ?_, ?_⟩
    · intro ttl httl hne
      have hcond : ¬(groupId.toLower = "hidden"
          ∧ (g.title.map String.trim = none ∨ g.title.map String.trim = some "")) := by
        rintro ⟨-, h2⟩
        rw [httl] at h2
        simp at h2
        exact hne h2
      simp [getFriendlyGroupName, hm, hg, hcond, httl, hne]
    · intro hhid hun
      have hcond : groupId.toLower = "hidden"
          ∧ (g.title.map String.trim = none ∨ g.title.map String.trim = some "") := by
        refine ⟨hhid, ?_⟩
        rcases hun with h | ⟨ttl, h1, h2⟩
        · left; rw [h]; rfl
        · right; rw [h1]; simp [h2]
      simp only [getFriendlyGroupName, hm, hg]
      rw [if_pos hcond]
    · intro hnh hun
      have hcond : ¬(groupId.toLower = "hidden"
          ∧ (g.title.map String.trim = none ∨ g.title.map String.trim = some "")) :=
        fun hc => hnh hc.1
      rcases hun with h | ⟨ttl, h1, h2⟩
      · simp [getFriendlyGroupName, hm, hg, hcond, h]
        intro hx
        exact absurd hx hnh
      · simp [getFriendlyGroupName, hm, hg, hcond, h1, h2]
        intro hx
        exact absurd hx hnh
  · intro h
    rcases h with h | ⟨m, hm, hg⟩
    · simp [getFriendlyGroupName, h]
    · simp [getFriendlyGroupName, hm, hg]

theorem C9_group_name_witness :
    lhrWithGroups.categoryGroups
      = some [("lcp-group", { title := some "LCP", description := none })]
    ∧ getFriendlyGroupName "metrics" lhrWithGroups = fallbackName "metrics" := by
  exact ⟨rfl, (C9_group_name "metrics" lhrWithGroups).2.1 (Or.inr ⟨_, rfl, rfl⟩)⟩

theorem exceptBind_ok {α β : Type} (x : α) (f : α → Except String β) :
    ((Except.ok x : Except String α) >>= f) = f x := rfl

theorem exceptBind_error {α β : Type} (e : String) (f : α → Except String β) :
    ((Except.error e : Except String α) >>= f) = Except.error e := rfl

theorem natDigitsAux_ne_nil (fuel n : Nat) : natDigitsAux (fuel + 1) n ≠ [] := by
  unfold natDigitsAux
  split
  · simp
  · simp

theorem natDec_succ_ne_zero_str (j : Nat) : natDec (j + 1) ≠ "0" := by
  intro h
  unfold natDec at h
  have hd : natDigitsAux (j + 1 + 1) (j + 1) = ['0'] := by
    have h2 := congrArg String.data h
    simpa using h2
  by_cases hj : j + 1 < 10
  · rw [natDigitsAux, if_pos hj] at hd
    injection hd with h1 h2
    have hub : j < 9 := by omega
    interval_cases j <;> exact absurd h1 (by decide)
  · rw [natDigitsAux, if_neg hj] at hd
    have hne : natDigitsAux (j + 1) ((j + 1) / 10) ≠ [] := by
      cases j with
      | zero => exact absurd (by norm_num) hj
      | succ m => exact natDigitsAux_ne_nil (m + 1) ((m + 1 + 1) / 10)
    have hlen := congrArg List.length hd
    simp at hlen
    exact hne hlen

theorem stepName_ne_step0 (j : Nat) : ("step-" ++ natDec (j + 1) ++ ".html") ≠ "step-0.html" := by
  intro h
  apply natDec_succ_ne_zero_str j
  have h1 := congrArg String.data h
  have h2 : "step-".data ++ ((natDec (j + 1)).data ++ ".html".data)
      = "step-".data ++ ("0".data ++ ".html".data) := by
    simpa [List.append_assoc] using h1
  have h3 : (natDec (j + 1)).data ++ ".html".data = "0".data ++ ".html".data :=
    List.append_cancel_left h2
  have h4 : (natDec (j + 1)).data = "0".data := List.append_cancel_right h3
  cases hnd : natDec (j + 1) with
  | mk l => rw [hnd] at h4; rw [show ("0" : String) = String.mk ("0".data) from rfl]; exact congrArg String.mk h4

theorem runPairs_spec (ps : List (StepIn × StepIn)) (k : Nat) (sums : List StepSummary)
    (files : List (String × String)) (h : runPairs ps k = .ok (sums, files)) :
    files.map Prod.fst
        = (List.range ps.length).map (fun j => "step-" ++ natDec (k + j + 1) ++ ".html")
    ∧ (∀ j b a, ps.get? j = some (b, a) → ∃ s html, runStepE b a (k + j) = .ok (s, html)
        ∧ files.get? j = some ("step-" ++ natDec (k + j + 1) ++ ".html", html)) := by
  induction ps generalizing k sums files with
  | nil =>
    unfold runPairs at h
    simp only [Except.ok.injEq, Prod.mk.injEq] at h
    obtain ⟨h1, h2⟩ := h
    subst h1
    subst h2
    refine ⟨by simp, ?_⟩
    intro j b a hj
    simp at hj
  | cons hd tl ih =>
    obtain ⟨b0, a0⟩ := hd
    unfold runPairs at h
    revert h
    cases hs0 : runStepE b0 a0 k with
    | error e =>
      intro h
      rw [exceptBind_error] at h
      exact absurd h (by simp)
    | ok r =>
      obtain ⟨sum0, html0⟩ := r
      intro h
      simp only [exceptBind_ok] at h
      revert h
      cases hrest : runPairs tl (k + 1) with
      | error e =>
        intro h
        rw [exceptBind_error] at h
        exact absurd h (by simp)
      | ok pr =>
        obtain ⟨sums', files'⟩ := pr
        intro h
        simp only [exceptBind_ok, Except.ok.injEq, Prod.mk.injEq] at h
        obtain ⟨hsums, hfiles⟩ := h
        subst hsums
        subst hfiles
        obtain ⟨ihnames, ihcontent⟩ := ih (k + 1) sums' files' hrest
        constructor
        · simp only [List.length_cons]
          rw [List.range_succ_eq_map]
          simp only [List.map_cons, List.map_map]
          rw [ihnames]
          congr 1
          apply List.map_congr_left
          intro j _
          have e : k + 1 + j + 1 = k + (j + 1) + 1 := by omega
          simp only [Function.comp_apply, Nat.succ_eq_add_one, e]
        · intro j b a hj
          cases j with
          | zero =>
            simp only [List.get?_cons_zero, Option.some.injEq, Prod.mk.injEq] at hj
            obtain ⟨h1, h2⟩ := hj
            subst h1
            subst h2
            refine ⟨sum0, html0, ?_, ?_⟩
            · simpa using hs0
            · simp
          | succ n =>
            simp only [List.get?_cons_succ] at hj
            obtain ⟨s, html, hh1, hh2⟩ := ihcontent n b a hj
            have e : k + 1 + n = k + (n + 1) := by omega
            rw [e] at hh1 hh2
            exact ⟨s, html, hh1, by simpa using hh2⟩

theorem runPairs_total (ps : List (StepIn × StepIn)) (k : Nat)
    (h : ∀ j b a, ps.get? j = some (b, a) → ∃ r, runStepE b a (k + j) = .ok r) :
    ∃ sums files, runPairs ps k = .ok (sums, files) := by
  induction ps generalizing k with
  | nil => exact ⟨[], [], rfl⟩
  | cons hd tl ih =>
    obtain ⟨b0, a0⟩ := hd
    obtain ⟨r0, hr0⟩ := h 0 b0 a0 (by simp)
    obtain ⟨sums, files, hrest⟩ := ih (k + 1) (fun j b a hj => by
      obtain ⟨r, hr⟩ := h (j + 1) b a (by simpa using hj)
      refine ⟨r, ?_⟩
      rw [show k + 1 + j = k + (j + 1) from by omega]
      exact hr)
    obtain ⟨sum0, html0⟩ := r0
    refine ⟨sum0 :: sums, ("step-" ++ natDec (k + 1) ++ ".html", html0) :: files, ?_⟩
    unfold runPairs
    have hr0' : runStepE b0 a0 k = .ok (sum0, html0) := by simpa using hr0
    rw [hr0']
    simp only [exceptBind_ok]
    rw [hrest]
    rfl

/-- Claim C7: step comparison pairs index i of the before sequence with
index i of the after sequence (zip), iterates exactly
min(len(beforeSteps), len(afterSteps)) steps with no error arising from a
length mismatch, and writes exactly one step-n.html for n = 1..min (the
page of the positionally paired snapshots) plus one index.html. -/
theorem C7_step_alignment (before after : InputDoc)
    (h : ∀ j b a, ((docSteps before).zip (docSteps after)).get? j = some (b, a) →
        ∃ r, runStepE b a j = .ok r) :
    ∃ sums files, runPairs ((docSteps before).zip (docSteps after)) 0 = .ok (sums, files)
      ∧ mainE before after = .ok (files ++ [("index.html", generateTimelineHTML sums)])
      ∧ files.length = min (docSteps before).length (docSteps after).length
      ∧ files.map Prod.fst
          = (List.range (min (docSteps before).length (docSteps after).length)).map
              (fun j => "step-" ++ natDec (j + 1) ++ ".html")
      ∧ (∀ j b a, ((docSteps before).zip (docSteps after)).get? j = some (b, a) →
          ∃ s html, runStepE b a j = .ok (s, html)
            ∧ files.get? j = some ("step-" ++ natDec (j + 1) ++ ".html", html)) := by
  have h' : ∀ j b a, ((docSteps before).zip (docSteps after)).get? j = some (b, a) →
      ∃ r, runStepE b a (0 + j) = .ok r := by
    intro j b a hj
    simpa [Nat.zero_add] using h j b a hj
  obtain ⟨sums, files, hrp⟩ := runPairs_total _ 0 h'
  obtain ⟨hnames, hcontent⟩ := runPairs_spec _ 0 sums files hrp
  refine ⟨sums, files, hrp, ?_, ?_, ?_, ?_⟩
  · unfold mainE
    rw [hrp]
    rfl
  · have hlen := congrArg List.length hnames
    simpa [List.length_zip] using hlen
  · simpa [List.length_zip, Nat.zero_add] using hnames
  · intro j b a hj
    obtain ⟨s, html, h1, h2⟩ := hcontent j b a hj
    exact ⟨s, html, by simpa [Nat.zero_add] using h1, by simpa [Nat.zero_add] using h2⟩

theorem C7_step_alignment_witness :
    (docSteps docTwoSteps).length = 2
    ∧ (docSteps docOneStep).length = 1
    ∧ ∃ sums files,
        runPairs ((docSteps docTwoSteps).zip (docSteps docOneStep)) 0 = .ok (sums, files)
        ∧ mainE docTwoSteps docOneStep = .ok (files ++ [("index.html", generateTimelineHTML sums)])
        ∧ files.map Prod.fst = ["step-1.html"] := by
  refine ⟨rfl, rfl, ?_⟩
  have hh : ∀ j b a, ((docSteps docTwoSteps).zip (docSteps docOneStep)).get? j = some (b, a) →
      ∃ r, runStepE b a j = .ok r := by
    intro j b a hj
    cases j with
    | zero =>
      have h0 : ((docSteps docTwoSteps).zip (docSteps docOneStep)).get? 0
          = some (stepA, stepB) := rfl
      rw [h0] at hj
      injection hj with h'
      simp only [Prod.mk.injEq] at h'
      obtain ⟨h1, h2⟩ := h'
      subst h1
      subst h2
      exact ⟨_, rfl⟩
    | succ n =>
      have h0 : ((docSteps docTwoSteps).zip (docSteps docOneStep)).get? (n + 1) = none := rfl
      rw [h0] at hj
      exact absurd hj (by simp)
  obtain ⟨sums, files, h1, h2, h3, h4, h5⟩ := C7_step_alignment docTwoSteps docOneStep hh
  refine ⟨sums, files, h1, h2, ?_⟩
  rw [h4]
  decide

/-- Claim C8 (amended): when the before snapshot DOES expose its audit and
category mappings (with arbitrary, possibly empty entries), delta
computation and step-page rendering complete without raising; an audit or
category entry missing from the before mapping only yields a skipped
(absent) delta entry, an audit with no before counterpart is omitted from
the problem list, and a category without a delta is rendered with an empty
delta annotation.  (A before snapshot entirely lacking its audits or
categories mapping raises; see the counterexample.) -/
theorem C8_before_malformed (nb na : Option String) (i : Nat) (bL aL : LHR)
    (bA : List (String × Audit)) (bC : List (String × Category))
    (aA : List (String × Audit)) (aC : List (String × Category))
    (hb1 : bL.audits = some bA) (hb2 : bL.categories = some bC)
    (ha1 : aL.audits = some aA) (ha2 : aL.categories = some aC) :
    (∃ s html, runStepE ⟨nb, bL⟩ ⟨na, aL⟩ i = .ok (s, html))
    ∧ (∀ id, findIn bA id = none → findIn (computeAuditDiffs bA aA) id = none)
    ∧ (∀ catId, findIn bC catId = none → findIn (computeCategoryDiffs bC aC) catId = none)
    ∧ (∀ ad ref, findIn bA ref.id = none → auditRow bL aL ad ref = "")
    ∧ (∀ (cds : List (String × CategoryDiff)) (cid : String), findIn cds cid = none →
        catDiffSpan (findIn cds cid) = "") := by
  have e1 : computeAuditDiffsE bL aL = .ok (computeAuditDiffs bA aA) := by
    unfold computeAuditDiffsE
    rw [ha1, hb1]
  have e2 : computeCategoryDiffsE bL aL = .ok (computeCategoryDiffs bC aC) := by
    unfold computeCategoryDiffsE
    rw [ha2, hb2]
  have e3 : ∀ (ad : List (String × AuditDiff)) (cd : List (String × CategoryDiff)),
      generateStepHTMLE (stepTitle i ⟨na, aL⟩) bL aL ad cd
        = .ok (generateStepHTML (stepTitle i ⟨na, aL⟩) bL aL ad cd) := by
    intro ad cd
    unfold generateStepHTMLE
    rw [ha2, ha1, hb1]
  have e4 : runStepE ⟨nb, bL⟩ ⟨na, aL⟩ i = .ok
      ({ name := summaryName i ⟨na, aL⟩, categoryDiffs := computeCategoryDiffs bC aC },
        generateStepHTML (stepTitle i ⟨na, aL⟩) bL aL
          (computeAuditDiffs bA aA) (computeCategoryDiffs bC aC)) := by
    unfold runStepE
    simp only [e1, e2, e3, exceptBind_ok]
  refine ⟨⟨_, _, e4⟩, ?_, ?_, ?_, ?_⟩
  · intro id hid
    unfold computeAuditDiffs
    rw [findIn_filterMap_keys]
    by_cases hmem : id ∈ aA.map Prod.fst
    · rw [if_pos hmem]
      unfold computeAuditDiff
      rw [hid]
      rfl
    · rw [if_neg hmem]
  · intro catId hid
    clear e1 e2 e3 e4 ha1 ha2 hb1 hb2
    induction aC with
    | nil => rfl
    | cons p rest ih =>
      simp only [computeCategoryDiffs, List.filterMap_cons]
      cases hc : computeCategoryDiff bC p.1 p.2 with
      | none =>
        simp only [Option.map_none']
        exact ih
      | some d =>
        have hne : p.1 ≠ catId := by
          intro he
          rw [he] at hc
          unfold computeCategoryDiff at hc
          rw [hid] at hc
          simp at hc
        simp only [Option.map_some']
        rw [findIn, if_neg hne]
        exact ih
  · intro ad ref hid
    simp only [auditRow, hb1, Option.getD_some, hid]
  · intro cds cid hc
    rw [hc]
    rfl

/-- Counterexample to claim C8 as stated: a before snapshot that entirely
lacks its audits mapping makes the audit-delta loop raise a TypeError as
soon as the after snapshot has at least one audit key, rather than
yielding skipped delta entries. -/
theorem C8_before_malformed_cex :
    computeAuditDiffsE lhrNoMaps lhrOneAudit
      = .error ("TypeError: audits of before is undefined")
    ∧ runStepE ⟨none, lhrNoMaps⟩ ⟨none, lhrOneAudit⟩ 0
      = .error ("TypeError: audits of before is undefined")
    ∧ lhrNoMaps.audits = none
    ∧ (lhrOneAudit.audits.getD []).length = 1 :=
  ⟨rfl, rfl, rfl, rfl⟩

theorem C8_before_malformed_witness :
    (∃ s html, runStepE ⟨some "A", lhr0⟩ ⟨some "B", lhrOneAudit⟩ 0 = .ok (s, html))
    ∧ findIn (computeAuditDiffs [] [("x", cexAuditA)]) "x" = none := by
  have hthm := C8_before_malformed (some "A") (some "B") 0 lhr0 lhrOneAudit
    [] [] [("x", cexAuditA)] [] rfl rfl rfl rfl
  exact ⟨hthm.1, hthm.2.1 "x" rfl⟩

/-- Claim C10: a populated category cell of the timeline row at zero-based
position i links to step-i.html while the step link in the same row and the
driver use i+1, so the written step files are exactly step-(j+1).html plus
index.html and the name step-0.html referenced by the first row category
cells is never among the written file names. -/
theorem C10_offby_one :
    (∀ (i : Nat) (val : CategoryDiff), ∃ pre post, catCell i val = pre ++ catCellHref i ++ post)
    ∧ (∀ (i : Nat) (st : StepSummary),
        ∃ pre post, stepLinkCell i st = pre ++ stepLinkCellHref i ++ post)
    ∧ catCellHref 0 = "href=\"step-0.html\""
    ∧ (∀ i, stepLinkCellHref i = "href=\"step-" ++ natDec (i + 1) ++ ".html\"")
    ∧ (∀ before after outs, mainE before after = .ok outs →
        ("step-0.html" ∉ outs.map Prod.fst
          ∧ ∀ f ∈ outs.map Prod.fst, f = "index.html"
              ∨ ∃ j, f = "step-" ++ natDec (j + 1) ++ ".html")) := by
  refine ⟨?_, ?_, by decide, fun i => rfl, ?_⟩
  · intro i val
    exact ⟨_, _, rfl⟩
  · intro i st
    exact ⟨_, _, rfl⟩
  · intro before after outs h
    unfold mainE at h
    revert h
    cases hrp : runPairs ((docSteps before).zip (docSteps after)) 0 with
    | error e =>
      intro h
      rw [exceptBind_error] at h
      exact absurd h (by simp)
    | ok pr =>
      obtain ⟨sums, files⟩ := pr
      intro h
      simp only [exceptBind_ok] at h
      injection h with h'
      subst h'
      obtain ⟨hnames, -⟩ := runPairs_spec _ 0 sums files hrp
      constructor
      · intro hmem
        rw [List.map_append, hnames] at hmem
        rcases List.mem_append.mp hmem with hm | hm
        · obtain ⟨j, -, hjf⟩ := List.mem_map.mp hm
          simp only [Nat.zero_add] at hjf
          exact stepName_ne_step0 j hjf
        · simp only [List.map_cons, List.map_nil, List.mem_singleton] at hm
          exact absurd hm (by decide)
      · intro f hf
        rw [List.map_append, hnames] at hf
        rcases List.mem_append.mp hf with hm | hm
        · right
          obtain ⟨j, -, hjf⟩ := List.mem_map.mp hm
          simp only [Nat.zero_add] at hjf
          exact ⟨j, hjf.symm⟩
        · left
          simp only [List.map_cons, List.map_nil, List.mem_singleton] at hm
          exact hm

theorem C10_offby_one_witness :
    (∃ pre post, catCell 0 cd0 = pre ++ catCellHref 0 ++ post)
    ∧ (∃ outs, mainE docTwoSteps docOneStep = .ok outs ∧ "step-0.html" ∉ outs.map Prod.fst) :=
  ⟨C10_offby_one.1 0 cd0,
    ⟨_, rfl, (C10_offby_one.2.2.2.2 docTwoSteps docOneStep _ rfl).1⟩⟩
